import Mathlib

/-!
Verification development for the data-analyst agent service.

The repository is a small FastAPI service (`app.py`) delegating to an
analysis pipeline (`analyzer.py`) that asks a language model for Python
code, extracts that code from the response, runs it in a child process,
and returns a list of typed output blocks.  Two tool functions
(`tools/scrape_website.py`, `tools/get_relevant_data.py`) are dispatched
from model tool calls.

The effectful parts of the Python code (file IO, subprocess, network,
the model call) are embedded by passing their outcomes explicitly as
arguments ("oracles"); each Python function then becomes a pure Lean
function of its arguments and those outcomes, following the source
control flow branch by branch.
-/

/- ### Payload blocks (analyzer.py)

`analyze` and `run_code_and_capture_output` return lists of
`{"type": ..., "output": ...}` dictionaries. -/

structure Block where
  type : String
  output : String
  deriving DecidableEq, Repr

/- ### Python string helpers

`str.strip()` removes leading and trailing Python whitespace
(space, tab, newline, carriage return, vertical tab, form feed). -/

def isPySpace (c : Char) : Bool :=
  c == ' ' || c == '\t' || c == '\n' || c == '\r' || c == '\x0b' || c == '\x0c'

def pyStrip (s : List Char) : List Char :=
  ((s.dropWhile isPySpace).reverse.dropWhile isPySpace).reverse

def pyStripS (s : String) : String :=
  String.mk (pyStrip s.data)

/-- Index of the first occurrence of `pat` in `s` (Python `str.find` /
the starting point of `re.search` for a literal prefix). -/
def findSub (pat : List Char) : List Char → Option Nat
  | [] => if pat.isEmpty then some 0 else none
  | c :: rest =>
    if pat.isPrefixOf (c :: rest) then some 0
    else (findSub pat rest).map (· + 1)

/-- Python substring containment: `pat in t`. -/
def containsSub (pat t : List Char) : Bool :=
  (findSub pat t).isSome

/- ### Code extraction (analyzer.py, tail of `analyze`)

The source does `re.search(r"```python(.*?)```", full_text, re.DOTALL)`:
the leftmost `"```python"` opener, then the non-greedy (hence nearest)
following `"```"`; the group is the text strictly between them.  If the
first opener has no closer after it, no later opener can have one
either, so first-opener/first-closer is exactly the regex result. -/

def openFence : List Char := ("```python").data

def closeFence : List Char := ("```").data

def importKw : List Char := ("import").data

def defKw : List Char := ("def ").data

def extractFenced (t : List Char) : Option (List Char) :=
  match findSub openFence t with
  | none => none
  | some i =>
    let rest := t.drop (i + openFence.length)
    match findSub closeFence rest with
    | none => none
    | some j => some (rest.take j)

/-- Fallback payload returned by `analyze` when no usable code is found. -/
def noUsablePayload : List Block :=
  [⟨"text", "🤷 No usable code returned by Gemini."⟩]

inductive CodeDecision where
  | runBlock (code : List Char)
  | runFull (code : List Char)
  | fallback
  deriving DecidableEq, Repr

/-- The decision taken by the tail of `analyze` on the response text:
a fenced python block is run with `match.group(1).strip()`; otherwise
the whole text is run (stripped) when it contains `"import"` or
`"def "` as a substring; otherwise the fallback payload is returned. -/
def codeDecision (t : List Char) : CodeDecision :=
  match extractFenced t with
  | some c => CodeDecision.runBlock (pyStrip c)
  | none =>
    if containsSub importKw t || containsSub defKw t then
      CodeDecision.runFull (pyStrip t)
    else
      CodeDecision.fallback

/- ### Tool calls and dispatch (analyzer.py)

`tool_call.args` goes through `json.loads`, which can raise; the parsed
value is a JSON object, modeled as an association list (string values
stand for the argument values, whose type the dispatcher never
inspects). -/

structure ToolCall where
  name : String
  args : Except String (List (String × String))

structure GResponse where
  text : Option (List Char)
  function_calls : List ToolCall

def analyzeTail (resp : GResponse) (runner : List Char → List Block) : List Block :=
  match resp.text with
  | none => noUsablePayload
  | some t =>
    match codeDecision t with
    | CodeDecision.runBlock c => runner c
    | CodeDecision.runFull c => runner c
    | CodeDecision.fallback => noUsablePayload

/-- The key-correction table of `sanitize_tool_params` in analyzer.py. -/
def fixesFor (tool_name : String) : List (String × String) :=
  if tool_name = "scrape_website" then [("file", "output_file")]
  else if tool_name = "get_relevant_data" then [("file", "file_name")]
  else []

def lookupKey (k : String) : List (String × String) → Option String
  | [] => none
  | (k2, v) :: rest => if k2 = k then some v else lookupKey k rest

def hasKey (k : String) (ps : List (String × String)) : Bool :=
  (lookupKey k ps).isSome

/-- `dict.pop(k)`: remove the binding of `k` (a Python dict has at most
one binding per key; on the association lists we use, a `Nodup`
hypothesis on the keys expresses that). -/
def popKey (k : String) : List (String × String) → List (String × String)
  | [] => []
  | (k2, v) :: rest => if k2 = k then rest else (k2, v) :: popKey k rest

/-- One step of the `for wrong, correct in fixes[tool_name].items()` loop:
`if wrong in params and correct not in params:
params[correct] = params.pop(wrong)` (the new key lands at the end). -/
def applyFix (ps : List (String × String)) (fix : String × String) : List (String × String) :=
  if hasKey fix.1 ps && !hasKey fix.2 ps then
    match lookupKey fix.1 ps with
    | some v => popKey fix.1 ps ++ [(fix.2, v)]
    | none => ps
  else ps

def sanitize_tool_params (tool_name : String) (params : List (String × String)) :
    List (String × String) :=
  (fixesFor tool_name).foldl applyFix params

/-- What the per-tool-call body of `analyze` does before the actual
side effect: parse the arguments, sanitize them, and pick the callee by
name.  A name matching neither registered tool falls through both `if`
branches: nothing happens (silent ignore). -/
inductive ToolAction where
  | scrape (params : List (String × String))
  | extractData (params : List (String × String))
  | ignored
  | failedParse (e : String)
  deriving DecidableEq, Repr

def dispatchOne (tc : ToolCall) : ToolAction :=
  match tc.args with
  | Except.error e => ToolAction.failedParse e
  | Except.ok ps =>
    let ps2 := sanitize_tool_params tc.name ps
    if tc.name = "scrape_website" then ToolAction.scrape ps2
    else if tc.name = "get_relevant_data" then ToolAction.extractData ps2
    else ToolAction.ignored

structure ToolStep where
  action : ToolAction
  failed : Bool
  deriving DecidableEq, Repr

/-- The `for tool_call in response.function_calls` loop: each call is
wrapped in its own `try/except` that logs and continues, so each step
is processed independently of the failures of the other steps
(`raises tc` is the oracle saying whether executing that call threw). -/
def toolPhase (tcs : List ToolCall) (raises : ToolCall → Bool) : List ToolStep :=
  tcs.map (fun tc => ⟨dispatchOne tc, raises tc⟩)

/- ### The Gemini retry loop (analyzer.py, head of `analyze`)

`for attempt in range(2)`: a `StopCandidateException` on the first
attempt amends the prompt and retries once; on the second attempt it is
terminal; any other exception is terminal immediately. -/

inductive LLMResult where
  | ok (resp : GResponse)
  | stopCandidate
  | exc (e : String)

def retrySuffix : String :=
  "\n\nYour last tool call failed due to malformed parameters. Please retry with correctly formatted parameters."

def malformedTwicePayload : List Block :=
  [⟨"text", "⚠️ Gemini failed twice due to malformed tool parameters. No valid answer could be generated."⟩]

def geminiFailedPayload (e : String) : List Block :=
  [⟨"text", "❌ Gemini query failed: " ++ e⟩]

/-- The retry loop, returning the list of prompts actually sent to the
model together with either the successful response or the terminal
error payload returned by `analyze`. -/
def llmPhase (prompt : String) (llm : String → LLMResult) :
    List String × Except (List Block) GResponse :=
  match llm prompt with
  | LLMResult.ok r => ([prompt], Except.ok r)
  | LLMResult.exc e => ([prompt], Except.error (geminiFailedPayload e))
  | LLMResult.stopCandidate =>
    match llm (prompt ++ retrySuffix) with
    | LLMResult.ok r => ([prompt, prompt ++ retrySuffix], Except.ok r)
    | LLMResult.exc e => ([prompt, prompt ++ retrySuffix], Except.error (geminiFailedPayload e))
    | LLMResult.stopCandidate =>
      ([prompt, prompt ++ retrySuffix], Except.error malformedTwicePayload)

/- ### Out-of-process execution (analyzer.py, `run_code_and_capture_output`)

The subprocess call is `subprocess.run(["python", temp_code_path],
capture_output=True, text=True, timeout=60)` inside a `try` with
`except subprocess.TimeoutExpired` and `except Exception` arms.  The
oracles: `writeErr` is the outcome of writing the script file, `sub`
the subprocess outcome, `repairOk` whether the DataFrame-inspection
pass (`exec` + `rename_film_column`) raised, `image` the base64 image
recovered from `scatterplot.png` or `plt.savefig` (none when absent or
when capture failed). -/

def subprocessTimeoutSeconds : Nat := 60

inductive SubprocResult where
  | completed (stdout stderr : String)
  | timedOut
  | exc (msg : String)

def run_code_and_capture_output (code : String) (writeErr : Option String)
    (sub : SubprocResult) (repairOk : Bool) (image : Option String) : List Block :=
  match writeErr with
  | some e => [⟨"text", "❌ Failed to write code file: " ++ e⟩]
  | none =>
    match sub with
    | SubprocResult.timedOut => [⟨"text", "⏱️ Code execution timed out!"⟩]
    | SubprocResult.exc e => [⟨"text", "❌ Code execution failed: " ++ e⟩]
    | SubprocResult.completed out err =>
      let output := out ++ err
      let textOut :=
        if pyStripS output = "" then "✅ Code executed, but no textual output."
        else pyStripS output
      let base := [(⟨"text", textOut⟩ : Block)]
      match image with
      | some b64 => base ++ [⟨"image", "data:image/png;base64," ++ b64⟩]
      | none => base

def timeoutPayload : List Block :=
  [⟨"text", "⏱️ Code execution timed out!"⟩]

/-- The whole of `analyze` at the payload level: read the questions
file, run the retry loop, then extract and run code from the response
text.  (The tool-call loop only has side effects; its results are
discarded by the source, so it does not appear in the payload path and
is modeled by `toolPhase`.) -/
def analyze (questionsContent : Except String String) (llm : String → LLMResult)
    (runner : List Char → List Block) : List Block :=
  match questionsContent with
  | Except.error e => [⟨"text", "❌ Failed to read questions file: " ++ e⟩]
  | Except.ok prompt =>
    match (llmPhase prompt llm).2 with
    | Except.error payload => payload
    | Except.ok resp => analyzeTail resp runner

/- ### File locations and the request boundary (app.py)

`app.root` makes a fresh per-request directory with
`tempfile.mkdtemp(prefix="agent_")` and removes it in `finally`;
uploads are saved inside it.  `run_code_and_capture_output`, by
contrast, writes the script at the fixed relative path
`"temp_code.py"` and reads the plot from the fixed `"scatterplot.png"`,
both in the process working directory.  `PathLoc` separates the two
location kinds; `mkdtemp` freshness is modeled by tagging a path inside
a request working directory with that request. -/

inductive PathLoc where
  | inWorkdir (requestId : Nat) (name : String)
  | cwd (name : String)
  deriving DecidableEq, Repr

def uploadPath (requestId : Nat) (filename : String) : PathLoc :=
  PathLoc.inWorkdir requestId filename

def tempScriptPath : PathLoc := PathLoc.cwd "temp_code.py"

/-- The path at which the analyzer writes the generated script while
serving a given request: `run_code_and_capture_output` has no request
parameter at all, so the path is the same fixed one for every request. -/
def scriptPathOf (requestId : Nat) : PathLoc := tempScriptPath

def scatterplotPath : PathLoc := PathLoc.cwd "scatterplot.png"

def isPerRequestScoped : PathLoc → Bool
  | PathLoc.inWorkdir _ _ => true
  | PathLoc.cwd _ => false

/-- CPython call binding for a signature made only of
positional-or-keyword parameters with no defaults and no `*args` /
`**kwargs` (which is `analyze`'s signature): the call binds iff there
are no excess positional arguments, every keyword names a parameter not
already bound positionally, and every parameter ends up bound. -/
def pythonCallBinds (params : List String) (npos : Nat) (kws : List String) : Bool :=
  Nat.ble npos params.length
  && kws.all (fun k => (params.drop npos).contains k)
  && (params.drop npos).all (fun p => kws.contains p)

def analyzeParams : List String := ["questions_file", "all_files"]

/-- The call at app.py line 78:
`analyze(file_paths, questions_text, return_code=True)` —
two positional arguments plus the keyword `return_code`. -/
def rootAnalyzeCallBinds : Bool :=
  pythonCallBinds analyzeParams 2 ["return_code"]

inductive RootOutcome where
  | badRequest (body : String)
  | success (body : String)
  | raised (msg : String)
  deriving DecidableEq, Repr

def isSuccessOutcome : RootOutcome → Bool
  | RootOutcome.success _ => true
  | _ => false

/-- The `root` endpoint of app.py: make the workdir, save uploads, and
inside `try ... finally shutil.rmtree(workdir)`: return 400 when no
questions file was uploaded, otherwise call the analyzer.  The second
component records whether the workdir was removed (the `finally` runs
on the return paths and on the exception path alike).  The success
branch is guarded by the call actually binding against `analyze`'s
signature; when it does not bind, the call raises `TypeError` and the
exception propagates out of the handler. -/
def root (requestId : Nat) (hasQuestionsFile : Bool) : RootOutcome × Bool :=
  if hasQuestionsFile then
    if rootAnalyzeCallBinds then
      (RootOutcome.success "analyzer JSON payload", true)
    else
      (RootOutcome.raised "TypeError: analyze got an unexpected keyword argument return_code", true)
  else
    (RootOutcome.badRequest "questions.txt is required", true)

/- ### HTML extractor (tools/get_relevant_data.py)

Only the `pd.read_html` call is guarded by a `try`; both the
`open(file_name).read()` at the top of the function and the
`soup.select(js_selector)` call sit outside every `try`, and each can
raise (a missing file, respectively a malformed CSS selector, which
makes `select` raise `SelectorSyntaxError`).  The oracles: `fileRead`
is the outcome of the open/read, `selectTexts` the outcome of
`soup.select` for a selector (`Except.error` when it raised),
`readHtmlTables` the CSV strings from `pd.read_html` (`none` when it
raised — that arm is `except: pass`), `soupTables` the `get_text` of
each `<table>`, and `visibleText` the `soup.get_text` of the page. -/

structure HtmlDoc where
  selectTexts : String → Except String (List String)
  readHtmlTables : Option (List String)
  soupTables : List String
  visibleText : String

inductive ExtractData where
  | texts (xs : List String)
  | text (s : String)
  deriving DecidableEq, Repr

def numberTablesFrom (i : Nat) : List String → List String
  | [] => []
  | t :: ts => ("Table " ++ toString i ++ ": " ++ t) :: numberTablesFrom (i + 1) ts

def soupChain (doc : HtmlDoc) : Except String ExtractData :=
  match doc.soupTables with
  | [] => Except.ok (ExtractData.text doc.visibleText)
  | t :: ts => Except.ok (ExtractData.texts (numberTablesFrom 1 (t :: ts)))

def restChain (doc : HtmlDoc) : Except String ExtractData :=
  match doc.readHtmlTables with
  | none => soupChain doc
  | some [] => soupChain doc
  | some (d :: ds) => Except.ok (ExtractData.texts (d :: ds))

def get_relevant_data (fileRead : Except String HtmlDoc) (js_selector : Option String) :
    Except String ExtractData :=
  match fileRead with
  | Except.error e => Except.error e
  | Except.ok doc =>
    match js_selector with
    | none => restChain doc
    | some sel =>
      if sel = "" then restChain doc
      else
        match doc.selectTexts sel with
        | Except.error e => Except.error e
        | Except.ok [] => restChain doc
        | Except.ok (x :: xs) => Except.ok (ExtractData.texts (x :: xs))

def exceptOk {ε α : Type} : Except ε α → Bool
  | Except.ok _ => true
  | Except.error _ => false

/- ### Scraper (tools/scrape_website.py)

The whole `page.goto` / `page.content` / file-write sequence sits in a
`try` whose `except Exception` arm prints
`f"Error scraping {url}: {e}"` and falls through to `browser.close()`:
no exception ever reaches the caller.  `tryOutcome` is the oracle for
that `try` body (`some e` = some step raised with message `e`). -/

structure ScrapeOutcome where
  printedError : Option String
  raised : Bool
  deriving DecidableEq, Repr

def scrape_website (url : String) (tryOutcome : Option String) : ScrapeOutcome :=
  match tryOutcome with
  | none => ⟨none, false⟩
  | some e => ⟨some ("Error scraping " ++ url ++ ": " ++ e), false⟩

/- ### Numeric coercion (app.py, `_json_default`)

`_json_default` is the `default=` hook given to `json.dumps`: it is
called on each node the serializer cannot encode natively, and the
serializer then recurses into the hook's result.  `PVal` models the
value trees that reach the serializer: native JSON scalars and lists,
numpy scalars, homogeneous numeric numpy arrays (a numeric ndarray has
one dtype, so its elements are all integers or all floats; `tolist`
yields native scalars), and arbitrary other objects carried together
with their `str()` rendering. -/

mutual
inductive PVal where
  | jsonInt (n : Int)
  | jsonFloat (q : Rat)
  | jsonStr (s : String)
  | jsonList (xs : PList)
  | npInt (n : Int)
  | npFloat (q : Rat)
  | npIntArr (xs : List Int)
  | npFloatArr (xs : List Rat)
  | other (s : String)
inductive PList where
  | nil
  | cons (hd : PVal) (tl : PList)
end

/-- `ndarray.tolist()` on a homogeneous integer array. -/
def intArrToList : List Int → PList
  | [] => PList.nil
  | n :: t => PList.cons (PVal.jsonInt n) (intArrToList t)

/-- `ndarray.tolist()` on a homogeneous float array. -/
def floatArrToList : List Rat → PList
  | [] => PList.nil
  | q :: t => PList.cons (PVal.jsonFloat q) (floatArrToList t)

def intArrStr : List Int → String
  | [] => ""
  | [n] => toString n
  | n :: t => toString n ++ " " ++ intArrStr t

def floatArrStr : List Rat → String
  | [] => ""
  | [q] => toString q.num ++ "/" ++ toString q.den
  | q :: t => toString q.num ++ "/" ++ toString q.den ++ " " ++ floatArrStr t

mutual
/-- Python `str()` of a value (the `other` constructor already carries
its rendering; renderings of composite values are not exercised by any
claim). -/
def pyStr : PVal → String
  | PVal.jsonInt n => toString n
  | PVal.jsonFloat q => toString q.num ++ "/" ++ toString q.den
  | PVal.jsonStr s => s
  | PVal.jsonList xs => "[" ++ pyStrL xs ++ "]"
  | PVal.npInt n => toString n
  | PVal.npFloat q => toString q.num ++ "/" ++ toString q.den
  | PVal.npIntArr xs => "[" ++ intArrStr xs ++ "]"
  | PVal.npFloatArr xs => "[" ++ floatArrStr xs ++ "]"
  | PVal.other s => s
def pyStrL : PList → String
  | PList.nil => ""
  | PList.cons h PList.nil => pyStr h
  | PList.cons h t => pyStr h ++ ", " ++ pyStrL t
end

/-- app.py `_json_default`, branch for branch: `np.integer → int`,
`np.floating → float`, `np.ndarray → obj.tolist()`, anything else →
`str(obj)`. -/
def json_default : PVal → PVal
  | PVal.npInt n => PVal.jsonInt n
  | PVal.npFloat q => PVal.jsonFloat q
  | PVal.npIntArr xs => PVal.jsonList (intArrToList xs)
  | PVal.npFloatArr xs => PVal.jsonList (floatArrToList xs)
  | v => PVal.jsonStr (pyStr v)

mutual
/-- Values the serializer encodes without calling the hook. -/
def isNative : PVal → Bool
  | PVal.jsonInt _ => true
  | PVal.jsonFloat _ => true
  | PVal.jsonStr _ => true
  | PVal.jsonList xs => isNativeL xs
  | _ => false
def isNativeL : PList → Bool
  | PList.nil => true
  | PList.cons h t => isNative h && isNativeL t
end

mutual
/-- The coercion `json.dumps(..., default=_json_default)` performs on a
value tree: native scalars pass through, lists are coerced elementwise,
and at every other node the hook's result is serialized.  At the two
array constructors the hook returns `jsonList (…ArrToList xs)`, whose
elements are native scalars, so the serializer's further recursion
leaves them unchanged (`coerceL_intArrToList` / `coerceL_floatArrToList`
below prove this step explicitly). -/
def coerce : PVal → PVal
  | PVal.jsonInt n => PVal.jsonInt n
  | PVal.jsonFloat q => PVal.jsonFloat q
  | PVal.jsonStr s => PVal.jsonStr s
  | PVal.jsonList xs => PVal.jsonList (coerceL xs)
  | PVal.npInt n => json_default (PVal.npInt n)
  | PVal.npFloat q => json_default (PVal.npFloat q)
  | PVal.npIntArr xs => PVal.jsonList (intArrToList xs)
  | PVal.npFloatArr xs => PVal.jsonList (floatArrToList xs)
  | PVal.other s => json_default (PVal.other s)
def coerceL : PList → PList
  | PList.nil => PList.nil
  | PList.cons h t => PList.cons (coerce h) (coerceL t)
end

/- ### Helper facts about the coercion, by structural recursion on the
mutual value type. -/

def intArrToList_native : ∀ xs : List Int, isNativeL (intArrToList xs) = true
  | [] => rfl
  | n :: t => by simp [intArrToList, isNativeL, isNative, intArrToList_native t]

def floatArrToList_native : ∀ xs : List Rat, isNativeL (floatArrToList xs) = true
  | [] => rfl
  | q :: t => by simp [floatArrToList, isNativeL, isNative, floatArrToList_native t]

mutual
/-- The serializer leaves a value it can encode natively unchanged. -/
def coerce_id_of_native : ∀ v : PVal, isNative v = true → coerce v = v
  | PVal.jsonInt _, _ => by simp [coerce]
  | PVal.jsonFloat _, _ => by simp [coerce]
  | PVal.jsonStr _, _ => by simp [coerce]
  | PVal.jsonList xs, h => by
    simp [coerce, coerceL_id_of_native xs (by simpa [isNative] using h)]
  | PVal.npInt _, h => by simp [isNative] at h
  | PVal.npFloat _, h => by simp [isNative] at h
  | PVal.npIntArr _, h => by simp [isNative] at h
  | PVal.npFloatArr _, h => by simp [isNative] at h
  | PVal.other _, h => by simp [isNative] at h
def coerceL_id_of_native : ∀ xs : PList, isNativeL xs = true → coerceL xs = xs
  | PList.nil, _ => by simp [coerceL]
  | PList.cons hd tl, h => by
    have h1 : isNative hd = true := by
      have := h
      simp [isNativeL, Bool.and_eq_true] at this
      exact this.1
    have h2 : isNativeL tl = true := by
      have := h
      simp [isNativeL, Bool.and_eq_true] at this
      exact this.2
    simp [coerceL, coerce_id_of_native hd h1, coerceL_id_of_native tl h2]
end

mutual
/-- The output of the serializer coercion is always native. -/
def coerce_native : ∀ v : PVal, isNative (coerce v) = true
  | PVal.jsonInt _ => by simp [coerce, isNative]
  | PVal.jsonFloat _ => by simp [coerce, isNative]
  | PVal.jsonStr _ => by simp [coerce, isNative]
  | PVal.jsonList xs => by simp [coerce, isNative, coerceL_native xs]
  | PVal.npInt _ => by simp [coerce, json_default, isNative]
  | PVal.npFloat _ => by simp [coerce, json_default, isNative]
  | PVal.npIntArr xs => by simp [coerce, isNative, intArrToList_native xs]
  | PVal.npFloatArr xs => by simp [coerce, isNative, floatArrToList_native xs]
  | PVal.other _ => by simp [coerce, json_default, isNative]
def coerceL_native : ∀ xs : PList, isNativeL (coerceL xs) = true
  | PList.nil => by simp [coerceL, isNativeL]
  | PList.cons hd tl => by simp [coerceL, isNativeL, coerce_native hd, coerceL_native tl]
end

/-!  ## Theorems  -/

/-- The elements produced by `tolist` on an integer array are native,
so coercing them again is the identity: this justifies the
`npIntArr` clause of `coerce` against the serializer recursion. -/
theorem coerceL_intArrToList (xs : List Int) : coerceL (intArrToList xs) = intArrToList xs :=
  coerceL_id_of_native (intArrToList xs) (intArrToList_native xs)

/-- Same as `coerceL_intArrToList`, for float arrays. -/
theorem coerceL_floatArrToList (xs : List Rat) : coerceL (floatArrToList xs) = floatArrToList xs :=
  coerceL_id_of_native (floatArrToList xs) (floatArrToList_native xs)

/-- C1: on every response text, a fenced python block is selected with
the fence markers removed and surrounding whitespace stripped, and that
code is what gets executed; with no fenced block, the whole text is run
(stripped) exactly when it contains an import statement or a
function-definition keyword; otherwise the pipeline returns the
well-formed typed fallback payload instead of an error. -/
theorem c1_code_extractor_contract :
    ∀ (t c : List Char) (fc : List ToolCall) (runner : List Char → List Block),
      (extractFenced t = some c →
        codeDecision t = CodeDecision.runBlock (pyStrip c) ∧
        analyzeTail ⟨some t, fc⟩ runner = runner (pyStrip c)) ∧
      (extractFenced t = none →
        (containsSub importKw t || containsSub defKw t) = true →
        codeDecision t = CodeDecision.runFull (pyStrip t) ∧
        analyzeTail ⟨some t, fc⟩ runner = runner (pyStrip t)) ∧
      (extractFenced t = none →
        (containsSub importKw t || containsSub defKw t) = false →
        codeDecision t = CodeDecision.fallback ∧
        analyzeTail ⟨some t, fc⟩ runner = noUsablePayload) ∧
      noUsablePayload = [⟨"text", "🤷 No usable code returned by Gemini."⟩] := by
  intro t c fc runner
  refine ⟨?_, ?_, ?_, rfl⟩
  · intro h
    exact ⟨by simp [codeDecision, h], by simp [analyzeTail, codeDecision, h]⟩
  · intro h hb
    exact ⟨by simp [codeDecision, h, hb], by simp [analyzeTail, codeDecision, h, hb]⟩
  · intro h hb
    exact ⟨by simp [codeDecision, h, hb], by simp [analyzeTail, codeDecision, h, hb]⟩

theorem c1_code_extractor_contract_witness :
    extractFenced (("```python\nimport x\n```").data) = some (("\nimport x\n").data) ∧
    codeDecision (("```python\nimport x\n```").data) = CodeDecision.runBlock (("import x").data) ∧
    analyzeTail ⟨some (("```python\nimport x\n```").data), []⟩
        (fun c => [⟨"text", String.mk c⟩]) = [⟨"text", "import x"⟩] := by
  have h : extractFenced (("```python\nimport x\n```").data) = some (("\nimport x\n").data) := by
    decide
  have h2 := (c1_code_extractor_contract (("```python\nimport x\n```").data)
    (("\nimport x\n").data) [] (fun c => [⟨"text", String.mk c⟩])).1 h
  exact ⟨h, h2.1.trans (by decide), h2.2.trans (by decide)⟩

/-- C2: the out-of-process budget in the code is 60 seconds (within the
60–120 second bound of the spec), and on `subprocess.TimeoutExpired`
the function returns the fixed, deterministic typed text payload
instead of propagating the exception. -/
theorem c2_timeout_payload :
    subprocessTimeoutSeconds = 60 ∧
    60 ≤ subprocessTimeoutSeconds ∧ subprocessTimeoutSeconds ≤ 120 ∧
    ∀ (code : String) (repairOk : Bool) (image : Option String),
      run_code_and_capture_output code none SubprocResult.timedOut repairOk image =
        timeoutPayload ∧
      timeoutPayload = [⟨"text", "⏱️ Code execution timed out!"⟩] := by
  refine ⟨rfl, by decide, by decide, ?_⟩
  intro code r img
  exact ⟨rfl, rfl⟩

/-- C3: a malformed-tool-call signal on the first model call is retried
exactly once with the amended prompt; a second such signal yields the
terminal structured payload; any other exception is terminal
immediately, with no retry, in either position. -/
theorem c3_malformed_retry :
    ∀ (p : String) (llm : String → LLMResult) (r : GResponse) (e : String),
      (llm p = LLMResult.stopCandidate →
        (llmPhase p llm).1 = [p, p ++ retrySuffix] ∧
        (llm (p ++ retrySuffix) = LLMResult.stopCandidate →
          (llmPhase p llm).2 = Except.error malformedTwicePayload) ∧
        (llm (p ++ retrySuffix) = LLMResult.exc e →
          (llmPhase p llm).2 = Except.error (geminiFailedPayload e)) ∧
        (llm (p ++ retrySuffix) = LLMResult.ok r →
          (llmPhase p llm).2 = Except.ok r)) ∧
      (llm p = LLMResult.exc e →
        (llmPhase p llm).1 = [p] ∧
        (llmPhase p llm).2 = Except.error (geminiFailedPayload e)) ∧
      (llm p = LLMResult.ok r →
        (llmPhase p llm).1 = [p] ∧ (llmPhase p llm).2 = Except.ok r) := by
  intro p llm r e
  refine ⟨?_, ?_, ?_⟩
  · intro h
    refine ⟨?_, ?_, ?_, ?_⟩
    · cases h2 : llm (p ++ retrySuffix) <;> simp [llmPhase, h, h2]
    · intro h2
      simp [llmPhase, h, h2]
    · intro h2
      simp [llmPhase, h, h2]
    · intro h2
      simp [llmPhase, h, h2]
  · intro h
    exact ⟨by simp [llmPhase, h], by simp [llmPhase, h]⟩
  · intro h
    exact ⟨by simp [llmPhase, h], by simp [llmPhase, h]⟩

theorem c3_malformed_retry_witness :
    (llmPhase ("Q") (fun _ => LLMResult.stopCandidate)).1 = [("Q"), ("Q") ++ retrySuffix] ∧
    (llmPhase ("Q") (fun _ => LLMResult.stopCandidate)).2 = Except.error malformedTwicePayload ∧
    (llmPhase ("Q") (fun _ => LLMResult.exc ("boom"))).1 = [("Q")] ∧
    (llmPhase ("Q") (fun _ => LLMResult.exc ("boom"))).2 =
      Except.error (geminiFailedPayload ("boom")) := by
  have h1 := (c3_malformed_retry ("Q") (fun _ => LLMResult.stopCandidate)
    ⟨none, []⟩ ("boom")).1 rfl
  have h2 := (c3_malformed_retry ("Q") (fun _ => LLMResult.exc ("boom"))
    ⟨none, []⟩ ("boom")).2.1 rfl
  exact ⟨h1.1, h1.2.1 rfl, h2.1, h2.2⟩

/-- C4: `run_code_and_capture_output` is total over every combination
of failure oracles, always returns a non-empty list of typed blocks
whose first element is a text block, and its payload is unchanged by
whether the best-effort DataFrame-inspection repair pass failed. -/
theorem c4_run_code_total :
    ∀ (code : String) (writeErr : Option String) (sub : SubprocResult) (repairOk : Bool)
      (image : Option String),
      (run_code_and_capture_output code writeErr sub repairOk image).isEmpty = false ∧
      (run_code_and_capture_output code writeErr sub repairOk image).head?.map Block.type =
        some ("text") ∧
      run_code_and_capture_output code writeErr sub true image =
        run_code_and_capture_output code writeErr sub false image := by
  intro code we sub r img
  refine ⟨?_, ?_, ?_⟩ <;>
    cases we <;> cases sub <;> cases img <;> simp [run_code_and_capture_output]

/-- C5 counterexample: the generated-script path is the same fixed
path for two distinct requests and lies in no per-request working
directory, so the temporary script is neither uniquely named per
request nor scoped to a per-request temporary directory. -/
theorem c5_fixed_script_path_cex :
    scriptPathOf 0 = scriptPathOf 1 ∧
    isPerRequestScoped (scriptPathOf 0) = false ∧
    isPerRequestScoped scatterplotPath = false ∧
    (0 : Nat) ≠ 1 := by decide

/-- C5 amended: the per-request upload working directory is removed on
every exit path of the boundary, and uploads saved inside it are
distinct across distinct requests; but the temporary script (like the
temporary image) is written at one fixed path in the shared process
working directory, identical for every request. -/
theorem c5_workdir_cleanup_amended :
    ∀ (requestId r1 r2 : Nat) (hasQuestionsFile : Bool) (n m : String),
      (root requestId hasQuestionsFile).2 = true ∧
      ((uploadPath r1 n = uploadPath r2 m) = (r1 = r2 ∧ n = m)) ∧
      scriptPathOf requestId = PathLoc.cwd ("temp_code.py") ∧
      isPerRequestScoped (scriptPathOf requestId) = false := by
  intro rid r1 r2 hq n m
  refine ⟨?_, ?_, rfl, rfl⟩
  · cases hq <;> rfl
  · simp [uploadPath]

/-- C7 counterexample: when opening the input file raises (the `open`
call is outside every `try` in the source), `get_relevant_data`
propagates the exception instead of returning a data mapping. -/
theorem c7_file_open_raises_cex :
    get_relevant_data (Except.error ("FileNotFoundError")) none =
      Except.error ("FileNotFoundError") ∧
    exceptOk (get_relevant_data (Except.error ("FileNotFoundError")) none) = false :=
  ⟨rfl, rfl⟩

theorem soupChain_ok (doc : HtmlDoc) : exceptOk (soupChain doc) = true := by
  cases h : doc.soupTables <;> simp [soupChain, h, exceptOk]

theorem restChain_ok (doc : HtmlDoc) : exceptOk (restChain doc) = true := by
  cases h : doc.readHtmlTables with
  | none => simp [restChain, h, soupChain_ok]
  | some l =>
    cases l with
    | nil =>
      simp only [restChain, h]
      exact soupChain_ok doc
    | cons a as => simp [restChain, h, exceptOk]

/-- C7 amended: once the input file has been read successfully and,
when a non-empty selector is provided, the `soup.select` call on it
does not raise, the extractor never raises — every extraction failure
degrades through the fallback chain (selector matches, pandas tables,
raw table text, visible page text) and a data mapping is always
returned; a file-open failure, and a selector on which `soup.select`
raises (a malformed CSS selector), propagate to the caller, since both
calls sit outside every `try`. -/
theorem c7_extractor_fallback_amended :
    ∀ (doc : HtmlDoc) (s e : String) (ls : List String)
      (st : String → Except String (List String))
      (tbls : List String) (vt : String) (rh : Option (List String))
      (d : String) (ds : List String) (x : String) (xs : List String),
      exceptOk (get_relevant_data (Except.ok doc) none) = true ∧
      (doc.selectTexts s = Except.ok ls →
        exceptOk (get_relevant_data (Except.ok doc) (some s)) = true) ∧
      (s ≠ "" → doc.selectTexts s = Except.error e →
        get_relevant_data (Except.ok doc) (some s) = Except.error e) ∧
      get_relevant_data (Except.ok ⟨st, none, [], vt⟩) none = Except.ok (ExtractData.text vt) ∧
      get_relevant_data (Except.ok ⟨st, some (d :: ds), tbls, vt⟩) none =
        Except.ok (ExtractData.texts (d :: ds)) ∧
      get_relevant_data (Except.ok ⟨fun _ => Except.ok (x :: xs), rh, tbls, vt⟩) (some ("h2")) =
        Except.ok (ExtractData.texts (x :: xs)) ∧
      get_relevant_data (Except.ok ⟨st, none, d :: ds, vt⟩) none =
        Except.ok (ExtractData.texts (numberTablesFrom 1 (d :: ds))) := by
  intro doc s e ls st tbls vt rh d ds x xs
  refine ⟨?_, ?_, ?_, rfl, rfl, rfl, rfl⟩
  · simp [get_relevant_data, restChain_ok]
  · intro h
    by_cases hs : s = ""
    · simp [get_relevant_data, hs, restChain_ok]
    · cases ls with
      | nil => simp [get_relevant_data, hs, h, restChain_ok]
      | cons a as => simp [get_relevant_data, hs, h, exceptOk]
  · intro hs he
    simp [get_relevant_data, hs, he]

theorem c7_extractor_fallback_amended_witness :
    exceptOk (get_relevant_data
        (Except.ok ⟨fun _ => Except.ok [], none, [], ("page text")⟩)
        (some ("div.row"))) = true ∧
    get_relevant_data
        (Except.ok ⟨fun _ => Except.error ("SelectorSyntaxError"), none, [], ("page text")⟩)
        (some ("[")) = Except.error ("SelectorSyntaxError") := by
  have h1 := c7_extractor_fallback_amended
    ⟨fun _ => Except.ok [], none, [], ("page text")⟩ ("div.row") ("e") []
    (fun _ => Except.ok []) [] ("page text") none ("d") [] ("x") []
  have h2 := c7_extractor_fallback_amended
    ⟨fun _ => Except.error ("SelectorSyntaxError"), none, [], ("page text")⟩ ("[")
    ("SelectorSyntaxError") [] (fun _ => Except.ok []) [] ("page text") none ("d") [] ("x") []
  exact ⟨h1.2.1 rfl, h2.2.2.1 (by decide) rfl⟩

/-- C8 counterexample: on a failing fetch the scraper returns normally
with `raised = false` — the failure is printed and swallowed, not
raised to the caller as the claim states. -/
theorem c8_fetch_error_swallowed_cex :
    (scrape_website ("https://example.com") (some ("net::ERR_CONNECTION_REFUSED"))).raised =
      false ∧
    (scrape_website ("https://example.com") (some ("net::ERR_CONNECTION_REFUSED"))).printedError =
      some ("Error scraping https://example.com: net::ERR_CONNECTION_REFUSED") :=
  ⟨rfl, rfl⟩

/-- C8 amended: every failure inside the fetch-and-save block is caught
by the `except Exception` arm, which logs an error message mentioning
the URL; the function never raises to its caller. -/
theorem c8_scraper_catches_amended :
    ∀ (url e : String),
      scrape_website url (some e) =
        ⟨some ("Error scraping " ++ url ++ ": " ++ e), false⟩ ∧
      (scrape_website url none).raised = false := by
  intro url e
  exact ⟨rfl, rfl⟩

/-- C9: the `_json_default` hook maps numpy integers to native
integers, numpy floats to native floats, numpy numeric arrays to native
lists (of native scalars), and any other unrecognized value to its
string representation; and the serialization coercion built on it is
idempotent — coercing an already-coerced payload changes nothing. -/
theorem c9_json_coercion :
    ∀ (n : Int) (q : Rat) (xs : List Int) (ys : List Rat) (s : String) (v : PVal),
      json_default (PVal.npInt n) = PVal.jsonInt n ∧
      json_default (PVal.npFloat q) = PVal.jsonFloat q ∧
      json_default (PVal.npIntArr xs) = PVal.jsonList (intArrToList xs) ∧
      isNativeL (intArrToList xs) = true ∧
      json_default (PVal.npFloatArr ys) = PVal.jsonList (floatArrToList ys) ∧
      isNativeL (floatArrToList ys) = true ∧
      json_default (PVal.other s) = PVal.jsonStr s ∧
      coerce (coerce v) = coerce v := by
  intro n q xs ys s v
  refine ⟨rfl, rfl, rfl, intArrToList_native xs, rfl, floatArrToList_native ys, ?_,
    coerce_id_of_native (coerce v) (coerce_native v)⟩
  simp [json_default, pyStr]

/-- C10: the boundary's call `analyze(file_paths, questions_text,
return_code=True)` does not bind against the declared signature
`analyze(questions_file, all_files)`, so on every request carrying a
questions file the handler raises, the success path is unreachable, and
the `finally` cleanup still removes the per-request directory. -/
theorem c10_signature_mismatch :
    rootAnalyzeCallBinds = false ∧
    ∀ requestId : Nat,
      (root requestId true).1 =
        RootOutcome.raised
          ("TypeError: analyze got an unexpected keyword argument return_code") ∧
      isSuccessOutcome (root requestId true).1 = false ∧
      (root requestId true).2 = true := by
  refine ⟨by decide, ?_⟩
  intro rid
  exact ⟨rfl, rfl, rfl⟩

theorem lookupKey_eq_none_of_notmem (k : String) :
    ∀ ps : List (String × String), k ∉ ps.map Prod.fst → lookupKey k ps = none := by
  intro ps
  induction ps with
  | nil => intro _; rfl
  | cons p rest ih =>
    intro h
    obtain ⟨k2, v⟩ := p
    simp only [List.map_cons, List.mem_cons, not_or] at h
    simp only [lookupKey]
    rw [if_neg (fun hh => h.1 hh.symm)]
    exact ih h.2

theorem lookupKey_append_of_none (k : String) :
    ∀ xs ys : List (String × String),
      lookupKey k xs = none → lookupKey k (xs ++ ys) = lookupKey k ys := by
  intro xs ys
  induction xs with
  | nil => intro _; rfl
  | cons p rest ih =>
    obtain ⟨k2, v⟩ := p
    intro h
    simp only [lookupKey] at h
    by_cases hk : k2 = k
    · rw [if_pos hk] at h
      exact absurd h (by simp)
    · rw [if_neg hk] at h
      simp only [List.cons_append, lookupKey]
      rw [if_neg hk]
      exact ih h

theorem lookupKey_popKey_self (k : String) :
    ∀ ps : List (String × String), (ps.map Prod.fst).Nodup →
      lookupKey k (popKey k ps) = none := by
  intro ps
  induction ps with
  | nil => intro _; rfl
  | cons p rest ih =>
    obtain ⟨k2, v⟩ := p
    intro hnd
    simp only [List.map_cons, List.nodup_cons] at hnd
    by_cases hk : k2 = k
    · simp only [popKey]
      rw [if_pos hk]
      subst hk
      exact lookupKey_eq_none_of_notmem k2 rest hnd.1
    · simp only [popKey]
      rw [if_neg hk]
      simp only [lookupKey]
      rw [if_neg hk]
      exact ih hnd.2

theorem lookupKey_popKey_other (k k2 : String) :
    ∀ ps : List (String × String),
      lookupKey k ps = none → lookupKey k (popKey k2 ps) = none := by
  intro ps
  induction ps with
  | nil => intro _; rfl
  | cons p rest ih =>
    obtain ⟨a, b⟩ := p
    intro h
    simp only [lookupKey] at h
    by_cases hak : a = k
    · rw [if_pos hak] at h
      exact absurd h (by simp)
    · rw [if_neg hak] at h
      simp only [popKey]
      by_cases hk2 : a = k2
      · rw [if_pos hk2]
        exact h
      · rw [if_neg hk2]
        simp only [lookupKey]
        rw [if_neg hak]
        exact ih h

theorem applyFix_renames (ps : List (String × String)) (w c v : String)
    (hnd : (ps.map Prod.fst).Nodup)
    (hw : lookupKey w ps = some v) (hc : lookupKey c ps = none) :
    applyFix ps (w, c) = popKey w ps ++ [(c, v)] ∧
    lookupKey c (applyFix ps (w, c)) = some v ∧
    lookupKey w (applyFix ps (w, c)) = none := by
  have hkw : hasKey w ps = true := by simp [hasKey, hw]
  have hkc : hasKey c ps = false := by simp [hasKey, hc]
  have heq : applyFix ps (w, c) = popKey w ps ++ [(c, v)] := by
    simp [applyFix, hkw, hkc, hw]
  have hcw : c ≠ w := by
    intro hh
    rw [hh, hw] at hc
    exact absurd hc (by simp)
  refine ⟨heq, ?_, ?_⟩
  · rw [heq, lookupKey_append_of_none c _ _ (lookupKey_popKey_other c w ps hc)]
    simp [lookupKey]
  · rw [heq, lookupKey_append_of_none w _ _ (lookupKey_popKey_self w ps hnd)]
    simp [lookupKey, hcw]

theorem applyFix_id_of_correct_present (ps : List (String × String)) (w c : String)
    (h : hasKey c ps = true) : applyFix ps (w, c) = ps := by
  simp [applyFix, h]

theorem applyFix_id_of_wrong_missing (ps : List (String × String)) (w c : String)
    (h : hasKey w ps = false) : applyFix ps (w, c) = ps := by
  simp [applyFix, h]

theorem sanitize_scrape_eq (ps : List (String × String)) :
    sanitize_tool_params ("scrape_website") ps = applyFix ps ("file", "output_file") := rfl

theorem sanitize_grd_eq (ps : List (String × String)) :
    sanitize_tool_params ("get_relevant_data") ps = applyFix ps ("file", "file_name") := rfl

/-- C6: before dispatch, the parameter key `file` is renamed to
`output_file` for `scrape_website` and to `file_name` for
`get_relevant_data`, exactly when the correct key is absent (and when
`file` is present); a tool call whose name matches neither registered
tool is silently ignored; and per-call failures never change how the
remaining calls are processed — every call in the list gets its own
step regardless of the failure oracle. -/
theorem c6_tool_dispatch :
    ∀ (ps : List (String × String)) (v name : String) (args : List (String × String))
      (tcs : List ToolCall) (raises : ToolCall → Bool),
      ((ps.map Prod.fst).Nodup → lookupKey ("file") ps = some v →
        lookupKey ("output_file") ps = none →
        lookupKey ("output_file") (sanitize_tool_params ("scrape_website") ps) = some v ∧
        lookupKey ("file") (sanitize_tool_params ("scrape_website") ps) = none) ∧
      (hasKey ("output_file") ps = true → sanitize_tool_params ("scrape_website") ps = ps) ∧
      (hasKey ("file") ps = false → sanitize_tool_params ("scrape_website") ps = ps) ∧
      ((ps.map Prod.fst).Nodup → lookupKey ("file") ps = some v →
        lookupKey ("file_name") ps = none →
        lookupKey ("file_name") (sanitize_tool_params ("get_relevant_data") ps) = some v ∧
        lookupKey ("file") (sanitize_tool_params ("get_relevant_data") ps) = none) ∧
      (hasKey ("file_name") ps = true → sanitize_tool_params ("get_relevant_data") ps = ps) ∧
      (name ≠ "scrape_website" → name ≠ "get_relevant_data" →
        dispatchOne ⟨name, Except.ok args⟩ = ToolAction.ignored) ∧
      (toolPhase tcs raises).length = tcs.length ∧
      (toolPhase tcs raises).map ToolStep.action = tcs.map dispatchOne := by
  intro ps v name args tcs raises
  refine ⟨?_, ?_, ?_, ?_, ?_, ?_, ?_, ?_⟩
  · intro hnd hw hc
    have h := applyFix_renames ps ("file") ("output_file") v hnd hw hc
    rw [sanitize_scrape_eq]
    exact ⟨h.2.1, h.2.2⟩
  · intro h
    rw [sanitize_scrape_eq]
    exact applyFix_id_of_correct_present ps ("file") ("output_file") h
  · intro h
    rw [sanitize_scrape_eq]
    exact applyFix_id_of_wrong_missing ps ("file") ("output_file") h
  · intro hnd hw hc
    have h := applyFix_renames ps ("file") ("file_name") v hnd hw hc
    rw [sanitize_grd_eq]
    exact ⟨h.2.1, h.2.2⟩
  · intro h
    rw [sanitize_grd_eq]
    exact applyFix_id_of_correct_present ps ("file") ("file_name") h
  · intro h1 h2
    simp [dispatchOne, h1, h2]
  · simp [toolPhase]
  · simp [toolPhase]

theorem c6_tool_dispatch_witness :
    lookupKey ("output_file")
        (sanitize_tool_params ("scrape_website") [("url", "u"), ("file", "page.html")]) =
      some ("page.html") ∧
    lookupKey ("file")
        (sanitize_tool_params ("scrape_website") [("url", "u"), ("file", "page.html")]) =
      none ∧
    dispatchOne ⟨("made_up_tool"), Except.ok []⟩ = ToolAction.ignored ∧
    hasKey ("output_file") [("output_file", "x"), ("file", "y")] = true ∧
    sanitize_tool_params ("scrape_website") [("output_file", "x"), ("file", "y")] =
      [("output_file", "x"), ("file", "y")] := by
  have h := c6_tool_dispatch [("url", "u"), ("file", "page.html")] ("page.html")
    ("made_up_tool") [] [] (fun _ => false)
  have h2 := c6_tool_dispatch [("output_file", "x"), ("file", "y")] ("y")
    ("made_up_tool") [] [] (fun _ => false)
  refine ⟨?_, ?_, ?_, by decide, ?_⟩
  · exact (h.1 (by decide) (by decide) (by decide)).1
  · exact (h.1 (by decide) (by decide) (by decide)).2
  · exact h.2.2.2.2.2.1 (by decide) (by decide)
  · exact h2.2.1 (by decide)
